import Mathlib

/-!
Verification of the agent decision engine of `api/app/agent_engine.py`,
the store layer `api/app/agent_database.py` and the tick orchestrator
`api/app/agent_worker.py`.

Modelling conventions:
* Python floats are modelled as exact rationals (`ℚ`); integer grid
  coordinates as `ℤ`.
* `datetime` values are modelled as rational timestamps (hours for social
  memory, seconds for decay).
* Randomness (`random.random`, `random.gauss`, the social wander target,
  which mixes `random.uniform` draws through `cos`/`sin`) is passed in
  explicitly as oracle inputs, so every theorem can quantify over all
  outcomes of the random number generator.
* `math.exp` inside the softmax is passed as an explicit function
  argument (its exact transcendental values never matter for the claims).
* Euclidean distances are compared through their squares: `math.sqrt` is
  strictly monotone on nonnegative reals, so `sqrt d ≤ 2 ↔ d ≤ 4` and
  `min` by `sqrt`-keyed distance coincides with `min` by squared distance.
-/

set_option linter.unusedVariables false

namespace AgentSim

/-- Modelled from the spec (§3 Data Model): the action kind enumeration of
the missing `agent_models.py` (`ActionType`); the kinds are the ones the
engine and the per-action duration table reference. -/
inductive ActionType where
  | idle
  | wander
  | walk_to_location
  | interact_food
  | interact_karaoke
  | interact_rest
  | interact_social_hub
  | interact_wander_point
  | initiate_conversation
  | join_conversation
  | leave_conversation
  | avoid_avatar
  | move
  | stand_still
  deriving DecidableEq, Repr

/-- Modelled from the spec (§3 Data Model): location categories
"(enumerated: food, rest_area, karaoke, social_hub, wander_point, …)" of
the missing `agent_models.py` (`LocationType`); `other` stands for any
further category (the generator's `else: continue` branch). -/
inductive LocationType where
  | food
  | rest_area
  | karaoke
  | social_hub
  | wander_point
  | other (s : String)
  deriving DecidableEq, Repr

/-- The `.value` string of the `LocationType` enum (used as the key of the
`world_affinities` mapping). -/
def LocationType.value : LocationType → String
  | .food => "food"
  | .rest_area => "rest_area"
  | .karaoke => "karaoke"
  | .social_hub => "social_hub"
  | .wander_point => "wander_point"
  | .other s => s

/-- Modelled from the spec (§3 Data Model): `Personality` — four traits in
[0,1] plus a mapping from location-category to affinity. -/
structure AgentPersonality where
  avatar_id : String
  sociability : ℚ
  curiosity : ℚ
  agreeableness : ℚ
  energy_baseline : ℚ
  world_affinities : List (String × ℚ)
  deriving DecidableEq, Repr

/-- Modelled from the spec (§3 Data Model): `Need State` — energy, hunger,
loneliness in [0,1], mood in [-1,1], plus the current-action bookkeeping
(the timestamp fields, which no claim reads, are left out). -/
structure AgentState where
  avatar_id : String
  energy : ℚ
  hunger : ℚ
  loneliness : ℚ
  mood : ℚ
  current_action : String := "idle"
  deriving DecidableEq, Repr

/-- Modelled from the spec (§3 Data Model): `Social Memory` — a directed
edge agent→agent (sentiment, familiarity, interaction_count,
last_interaction, last_conversation_topic); `last_interaction` is a
rational timestamp in hours. -/
structure SocialMemory where
  id : String
  from_avatar_id : String
  to_avatar_id : String
  sentiment : ℚ
  familiarity : ℚ
  interaction_count : ℕ
  last_interaction : Option ℚ := none
  last_conversation_topic : Option String := none
  deriving DecidableEq, Repr

/-- Modelled from the spec (§3 Data Model): `World Location` — id,
category, position, per-need effect deltas, cooldown duration. -/
structure WorldLocation where
  id : String
  name : String
  location_type : LocationType
  x : ℤ
  y : ℤ
  effects : List (String × ℚ) := []
  cooldown_seconds : ℚ := 300
  deriving DecidableEq, Repr

/-- Modelled from the spec (§3 Data Model): `Nearby Entity` — id,
position, distance, online flag. -/
structure NearbyAvatar where
  avatar_id : String
  x : ℤ
  y : ℤ
  distance : ℚ
  is_online : Bool := false
  deriving DecidableEq, Repr

/-- Modelled from the spec (§3 Data Model): the optional target of a
candidate/selected action (position, location-id, or avatar-id with a
display hint). -/
structure ActionTarget where
  target_type : String
  target_id : Option String := none
  name : Option String := none
  x : Option ℤ := none
  y : Option ℤ := none
  deriving DecidableEq, Repr

/-- Modelled from the spec (§3 Data Model): `Candidate Action` — action
kind, optional target, five component scores plus combined utility
(all defaulting to 0 before scoring). -/
structure CandidateAction where
  action_type : ActionType
  target : Option ActionTarget := none
  need_satisfaction : ℚ := 0
  personality_alignment : ℚ := 0
  social_memory_bias : ℚ := 0
  world_affinity : ℚ := 0
  recency_penalty : ℚ := 0
  randomness : ℚ := 0
  utility_score : ℚ := 0
  deriving DecidableEq, Repr

/-- Modelled from the spec (§3 Data Model): `Selected Action` — kind,
optional target, utility and chosen duration. -/
structure SelectedAction where
  action_type : ActionType
  target : Option ActionTarget := none
  utility_score : ℚ
  duration_seconds : Option ℚ := none
  deriving DecidableEq, Repr

/-- Modelled from the spec (§4.6): a pending inbound conversation request
(the dict built by `get_pending_conversation_requests`). -/
structure PendingRequest where
  initiator_id : String
  initiator_type : String := "ROBOT"
  deriving DecidableEq, Repr

/-- Modelled from the spec (§3 Data Model): `Context Snapshot`
(`AgentContext` of the missing `agent_models.py`). -/
structure AgentContext where
  avatar_id : String
  x : ℤ
  y : ℤ
  personality : AgentPersonality
  state : AgentState
  social_memories : List SocialMemory := []
  nearby_avatars : List NearbyAvatar := []
  world_locations : List WorldLocation := []
  active_cooldowns : List String := []
  in_conversation : Bool := false
  pending_conversation_requests : List PendingRequest := []
  deriving DecidableEq, Repr

/-- `dict.get(key, default)` over an association list. -/
def dictGetD (d : List (String × ℚ)) (k : String) (default : ℚ) : ℚ :=
  match d.find? (fun kv => kv.1 == k) with
  | some kv => kv.2
  | none => default

-- ============================================================================
-- CONFIGURATION  (agent_engine.py, class DecisionConfig)
-- ============================================================================

namespace DecisionConfig

def NEED_WEIGHT : ℚ := 1.0
def PERSONALITY_WEIGHT : ℚ := 0.8
def SOCIAL_WEIGHT : ℚ := 1.0
def AFFINITY_WEIGHT : ℚ := 1.0
def RECENCY_WEIGHT : ℚ := 0.15
def RANDOMNESS_WEIGHT : ℚ := 0.3
def ACTIVITY_BASE_BONUS : ℚ := 0.8
def CONVERSATION_BASE_BONUS : ℚ := 2.0
def SOFTMAX_TEMPERATURE : ℚ := 0.3
def CRITICAL_HUNGER : ℚ := 0.85
def CRITICAL_ENERGY : ℚ := 0.1
def HIGH_LONELINESS : ℚ := 0.5
def LOW_MOOD : ℚ := 0.3
def CONVERSATION_RADIUS : ℚ := 15
def RECENT_INTERACTION_HOURS : ℚ := 0.5
def ENERGY_DECAY : ℚ := 0.02
def HUNGER_GROWTH : ℚ := 0.015
def LONELINESS_GROWTH : ℚ := 0.02
def SOCIAL_WANDER_INFLUENCE : ℚ := 0.5
def WANDER_RANDOMNESS : ℚ := 0.5
def MAP_WIDTH : ℤ := 60
def MAP_HEIGHT : ℤ := 40

end DecisionConfig

-- ============================================================================
-- STATE UPDATES  (agent_engine.py, apply_state_decay / apply_interaction_effects)
-- ============================================================================

/-- `apply_state_decay(state, elapsed_seconds)` — natural decay/growth of
the needs over `elapsed_seconds` of real time. -/
def apply_state_decay (state : AgentState) (elapsed_seconds : ℚ) : AgentState :=
  let tick_factor := elapsed_seconds / 300
  let new_energy := max 0 (state.energy - DecisionConfig.ENERGY_DECAY * tick_factor)
  let new_hunger := min 1 (state.hunger + DecisionConfig.HUNGER_GROWTH * tick_factor)
  let new_loneliness := min 1 (state.loneliness + DecisionConfig.LONELINESS_GROWTH * tick_factor)
  let new_mood := state.mood * (1 - 0.01 * tick_factor)
  { state with
    energy := new_energy
    hunger := new_hunger
    loneliness := new_loneliness
    mood := new_mood }

/-- `apply_interaction_effects(state, effects)` — apply a world
interaction's per-need deltas, clamping each need to its range. -/
def apply_interaction_effects (state : AgentState) (effects : List (String × ℚ)) : AgentState :=
  let new_energy := max 0 (min 1 (state.energy + dictGetD effects "energy" 0))
  let new_hunger := max 0 (min 1 (state.hunger + dictGetD effects "hunger" 0))
  let new_loneliness := max 0 (min 1 (state.loneliness + dictGetD effects "loneliness" 0))
  let new_mood := max (-1) (min 1 (state.mood + dictGetD effects "mood" 0))
  { state with
    energy := new_energy
    hunger := new_hunger
    loneliness := new_loneliness
    mood := new_mood }

-- ============================================================================
-- SOCIAL MEMORY UPSERT  (agent_database.py, update_social_memory)
-- ============================================================================

/-- `update_social_memory(client, from, to, sentiment_delta,
familiarity_delta, conversation_topic)` — pure core of the upsert: given
the existing row (the result of `get_social_memory`, `none` when absent),
the current time `now` (hours) and a fresh uuid `new_id`, it returns the
`SocialMemory` that the Python function writes back and returns. -/
def update_social_memory (existing : Option SocialMemory)
    (from_avatar_id to_avatar_id : String) (sentiment_delta familiarity_delta : ℚ)
    (conversation_topic : Option String) (now : ℚ) (new_id : String) : SocialMemory :=
  match existing with
  | some e =>
    let new_sentiment := max (-1) (min 1 (e.sentiment + sentiment_delta))
    let new_familiarity := max 0 (min 1 (e.familiarity + familiarity_delta))
    { id := e.id
      from_avatar_id := from_avatar_id
      to_avatar_id := to_avatar_id
      sentiment := new_sentiment
      familiarity := new_familiarity
      interaction_count := e.interaction_count + 1
      last_interaction := some now
      last_conversation_topic :=
        match conversation_topic with
        | some t => some t
        | none => e.last_conversation_topic }
  | none =>
    { id := new_id
      from_avatar_id := from_avatar_id
      to_avatar_id := to_avatar_id
      sentiment := max (-1) (min 1 sentiment_delta)
      familiarity := max 0 (min 1 familiarity_delta)
      interaction_count := 1
      last_interaction := some now
      last_conversation_topic := conversation_topic }

-- ============================================================================
-- NEED SATISFACTION  (agent_engine.py, calculate_need_satisfaction)
-- ============================================================================

/-- `calculate_need_satisfaction(action, state, target, location)` — how
much an action satisfies current needs. -/
def calculate_need_satisfaction (action : ActionType) (state : AgentState)
    (target : Option ActionTarget) (location : Option WorldLocation) : ℚ :=
  let score : ℚ := 0
  -- All location activities get a base attractiveness bonus
  let score := if action ∈ [ActionType.interact_food, .interact_rest, .interact_karaoke,
      .interact_social_hub, .interact_wander_point] then
    score + DecisionConfig.ACTIVITY_BASE_BONUS else score
  -- Walking to a location also gets a smaller base bonus
  let score := if action = .walk_to_location ∧ location.isSome then
    score + DecisionConfig.ACTIVITY_BASE_BONUS * 0.5 else score
  -- Food-related actions
  let score := if action ∈ [ActionType.walk_to_location, .interact_food] then
    match location with
    | some loc =>
      if loc.location_type = .food then
        score + 1.0 + state.hunger * 2.0
          + (if state.hunger > DecisionConfig.CRITICAL_HUNGER then 1.5 else 0)
      else score
    | none => score
    else score
  -- Rest-related actions
  let score := if action ∈ [ActionType.walk_to_location, .interact_rest, .idle] then
    if action = .idle then score + (1.0 - state.energy) * 0.1
    else match location with
    | some loc =>
      if loc.location_type = .rest_area then
        if state.energy < 0.2 then
          score + (1.0 - state.energy) * 1.5
            + (if state.energy < DecisionConfig.CRITICAL_ENERGY then 1.5 else 0)
        else if state.energy < 0.4 then score + 0.2
        else score - 0.5
      else score
    | none => score
    else score
  -- Social actions
  let score := if action ∈ [ActionType.initiate_conversation, .join_conversation] then
    score + DecisionConfig.CONVERSATION_BASE_BONUS + state.loneliness * 1.0
      + (if state.loneliness > DecisionConfig.HIGH_LONELINESS then 0.5 else 0)
    else score
  -- Karaoke
  let score := if action = .interact_karaoke then
    score + 1.2 + state.loneliness * 1.0 + (1.0 - state.mood) * 1.2
      + (if state.energy > 0.2 then 0.5 else 0)
    else score
  -- Social hub
  let score := if action = .interact_social_hub then
    score + 1.0 + state.loneliness * 1.5
      + (if state.loneliness > DecisionConfig.HIGH_LONELINESS then 0.8 else 0)
    else score
  -- Wander point
  let score := if action = .interact_wander_point then
    score + 0.8 + (1.0 - state.mood) * 0.6 + (if state.energy > 0.3 then 0.4 else 0)
    else score
  -- Wander
  let score := if action = .wander then
    score + 0.7 + (if state.energy > 0.3 then 0.4 else 0)
      + (if state.hunger < 0.7 then 0.3 else 0)
    else score
  -- Idle
  let score := if action = .idle then score + 0.01 else score
  score

-- ============================================================================
-- PERSONALITY ALIGNMENT  (agent_engine.py, calculate_personality_alignment)
-- ============================================================================

/-- `calculate_personality_alignment(action, personality, location)`. -/
def calculate_personality_alignment (action : ActionType)
    (personality : AgentPersonality) (location : Option WorldLocation) : ℚ :=
  let score : ℚ := 0
  let score := if action ∈ [ActionType.initiate_conversation, .join_conversation] then
    score + personality.sociability * 1.5 + 0.5 else score
  let score := if action = .wander then
    score + personality.curiosity * 1.0 + personality.energy_baseline * 0.3 + 0.4 else score
  let score := if action = .join_conversation then
    score + personality.agreeableness * 0.6 else score
  let score := if action ∈ [ActionType.idle, .interact_rest] then
    score + (1.0 - personality.energy_baseline) * 0.3 else score
  let score := if action ∈ [ActionType.wander, .interact_karaoke, .interact_wander_point,
      .interact_food, .interact_social_hub] then
    score + personality.energy_baseline * 0.5 else score
  let score := if action = .interact_social_hub then
    score + personality.sociability * 0.8 else score
  let score := if action = .interact_karaoke then
    score + personality.sociability * 0.6 + 0.3 else score
  let score := if action = .interact_food then score + 0.4 else score
  let score := if action = .interact_wander_point then
    score + personality.curiosity * 0.7 else score
  score

-- ============================================================================
-- SOCIAL MEMORY BIAS  (agent_engine.py, calculate_social_bias)
-- ============================================================================

/-- `calculate_social_bias(action, target_avatar, social_memory)`. -/
def calculate_social_bias (action : ActionType)
    (target_avatar : Option NearbyAvatar) (social_memory : Option SocialMemory) : ℚ :=
  match target_avatar with
  | none => 0
  | some ta =>
    let score : ℚ := 0
    let score := match social_memory with
      | some sm =>
        let score := if action = .initiate_conversation then
            score + sm.sentiment * 0.8 + sm.familiarity * 0.5
              + (if sm.interaction_count > 3 then 0.2 else 0)
              + (if sm.interaction_count > 10 then 0.2 else 0)
            -- mutual_interests bonus: the SocialMemory record (spec §3)
            -- has no mutual_interests field, so the hasattr guard is False
          else score
        let score := if sm.sentiment < -0.5 then score - 0.5 else score
        let score := if action = .avoid_avatar then
            score + |sm.sentiment| * 1.5 + (if ta.distance ≤ 3 then 0.5 else 0)
          else score
        score
      | none =>
        if action = .initiate_conversation then score + 0.4 else score
    let score := if ta.is_online ∧ action = .initiate_conversation then score + 0.2 else score
    score

-- ============================================================================
-- WORLD AFFINITY  (agent_engine.py, calculate_world_affinity)
-- ============================================================================

/-- `personality.world_affinities.get(location.location_type.value, 0.5)` —
the affinity lookup of line 321 of `agent_engine.py`. -/
def affinityFor (personality : AgentPersonality) (location : WorldLocation) : ℚ :=
  dictGetD personality.world_affinities location.location_type.value 0.5

/-- `calculate_world_affinity(action, personality, location)` — the
threshold-segmented affinity curve. -/
def calculate_world_affinity (action : ActionType)
    (personality : AgentPersonality) (location : Option WorldLocation) : ℚ :=
  match location with
  | none => 0
  | some loc =>
    let affinity := affinityFor personality loc
    if action ∈ [ActionType.walk_to_location, .interact_food, .interact_karaoke,
        .interact_rest, .interact_social_hub, .interact_wander_point] then
      if affinity ≥ 0.7 then 0.6 + (affinity - 0.7) * 2.0
      else if affinity ≥ 0.5 then 0.2 + (affinity - 0.5) * 2.0
      else if affinity ≥ 0.3 then (affinity - 0.3) * 1.0
      else (affinity - 0.3) * 1.0
    else 0

-- ============================================================================
-- RECENCY PENALTY  (agent_engine.py, calculate_recency_penalty)
-- ============================================================================

/-- `calculate_recency_penalty(action, target_avatar, social_memory,
active_cooldowns, target_location)`; `now_hours` stands for
`datetime.utcnow()` (timestamps are rational hours). -/
def calculate_recency_penalty (now_hours : ℚ) (action : ActionType)
    (target_avatar : Option NearbyAvatar) (social_memory : Option SocialMemory)
    (active_cooldowns : List String) (target_location : Option WorldLocation) : ℚ :=
  let penalty : ℚ := 0
  let penalty := if action = .initiate_conversation then
    match social_memory with
    | some sm =>
      match sm.last_interaction with
      | some li =>
        let hours_since := now_hours - li
        if hours_since < DecisionConfig.RECENT_INTERACTION_HOURS then
          penalty + 0.5 * (1.0 - hours_since / DecisionConfig.RECENT_INTERACTION_HOURS)
        else penalty
      | none => penalty
    | none => penalty
    else penalty
  let penalty := match target_location with
    | some tl => if tl.id ∈ active_cooldowns then penalty + 1.0 else penalty
    | none => penalty
  penalty

-- ============================================================================
-- ACTION GENERATION  (agent_engine.py, generate_candidate_actions)
-- ============================================================================

/-- Squared Euclidean distance between grid points; `agent_engine.py`
compares `math.sqrt` of this against radii, equivalently the square
against the squared radius. -/
def distSq (x y lx ly : ℤ) : ℤ := (lx - x) ^ 2 + (ly - y) ^ 2

/-- `⌊5·dx / max 1 √n⌋` computed exactly over the integers (the avoid
branch's `(dx / dist) * 5` with `dist = max(1, sqrt(dx² + dy²))`):
for `n ≥ 2` and `a = 5·|dx|`, `⌊a/√n⌋` is the greatest `k` with
`k²·n ≤ a²`, i.e. `Nat.sqrt (a*a/n)`, and the ceiling (for negative
`dx`) adds 1 unless `a² = k²·n`. -/
def floorFlee (dx : ℤ) (n : ℕ) : ℤ :=
  if n ≤ 1 then 5 * dx
  else
    let a := 5 * dx.natAbs
    let c := Nat.sqrt (a * a / n)
    if 0 ≤ dx then (c : ℤ)
    else -(if c * c * n = a * a then (c : ℤ) else (c : ℤ) + 1)

/-- The flee target of the avoid branch (lines 573–582 of
`agent_engine.py`): `int(context.x + (dx / dist) * 5)` clamped to
`[1,73]`, resp. `[1,54]` for y ("assuming 75x56" per the source comment).
Python's `int(·)` truncates toward zero; after the clamp this coincides
with `context.x + ⌊5·dx/dist⌋` (they differ only when the unclamped value
is negative, where both clamp to 1). -/
def fleePosition (cx cy : ℤ) (nearby : NearbyAvatar) : ℤ × ℤ :=
  let dx := cx - nearby.x
  let dy := cy - nearby.y
  let n := (dx ^ 2 + dy ^ 2).toNat
  (max 1 (min 73 (cx + floorFlee dx n)), max 1 (min 54 (cy + floorFlee dy n)))

/-- `generate_candidate_actions(context)` — all feasible actions for the
current context. `wander_target` is the output of
`calculate_social_wander_target(context)`, a function of the RNG draws
(uniform angle and distance pushed through `cos`/`sin`/`sqrt`); it is
passed in as an oracle input since its value is irrational in general and
no claim constrains it. -/
def generate_candidate_actions (wander_target : ℤ × ℤ) (context : AgentContext) :
    List CandidateAction :=
  -- Always available: Idle
  let idleAction : CandidateAction := { action_type := .idle, target := none }
  -- Always available: Wander (with social-biased target)
  let wanderAction : CandidateAction :=
    { action_type := .wander
      target := some { target_type := "position"
                       x := some wander_target.1, y := some wander_target.2 } }
  -- World location actions (skipping locations on cooldown)
  let locationActions := context.world_locations.filterMap (fun location =>
    if location.id ∈ context.active_cooldowns then none
    else
      let tgt : ActionTarget :=
        { target_type := "location", target_id := some location.id
          name := some location.name, x := some location.x, y := some location.y }
      -- distance ≤ 2 ↔ squared distance ≤ 4
      if distSq context.x context.y location.x location.y ≤ 4 then
        match location.location_type with
        | .food => some { action_type := .interact_food, target := some tgt }
        | .karaoke => some { action_type := .interact_karaoke, target := some tgt }
        | .rest_area => some { action_type := .interact_rest, target := some tgt }
        | .social_hub => some { action_type := .interact_social_hub, target := some tgt }
        | .wander_point => some { action_type := .interact_wander_point, target := some tgt }
        | .other _ => none
      else
        some { action_type := .walk_to_location, target := some tgt })
  -- Social actions - only if not in conversation
  let socialActions :=
    if context.in_conversation then []
    else context.nearby_avatars.filterMap (fun nearby =>
      let memory := context.social_memories.find? (fun m => m.to_avatar_id == nearby.avatar_id)
      let dislikes := match memory with
        | some m => decide (m.sentiment < -0.3)
        | none => false
      if dislikes && decide (nearby.distance ≤ DecisionConfig.CONVERSATION_RADIUS + 4) then
        let flee := fleePosition context.x context.y nearby
        some { action_type := .avoid_avatar
               target := some { target_type := "avatar"
                                target_id := some nearby.avatar_id
                                name := some ("away from " ++ nearby.avatar_id.take 8)
                                x := some flee.1, y := some flee.2 } }
      else if nearby.distance ≤ DecisionConfig.CONVERSATION_RADIUS then
        some { action_type := .initiate_conversation
               target := some { target_type := "avatar"
                                target_id := some nearby.avatar_id
                                x := some nearby.x, y := some nearby.y } }
      else none)
  -- Leave conversation if in one
  let leaveActions : List CandidateAction :=
    if context.in_conversation then [{ action_type := .leave_conversation, target := none }]
    else []
  [idleAction, wanderAction] ++ locationActions ++ socialActions ++ leaveActions

-- ============================================================================
-- ACTION SCORING  (agent_engine.py, score_action / score_all_actions)
-- ============================================================================

/-- `score_action(action, context)` — resolves the action's target and
fills in the five weighted component scores, the Gaussian perturbation
(`g` is the `random.gauss(0, 0.1)` draw) and the total utility. -/
def score_action (now_hours : ℚ) (g : ℚ) (context : AgentContext)
    (action : CandidateAction) : CandidateAction :=
  let target_avatar : Option NearbyAvatar :=
    match action.target with
    | some t =>
      if t.target_type == "avatar" then
        match t.target_id with
        | some tid => context.nearby_avatars.find? (fun a => a.avatar_id == tid)
        | none => none
      else none
    | none => none
  let social_memory : Option SocialMemory :=
    match action.target with
    | some t =>
      if t.target_type == "avatar" then
        match t.target_id with
        | some tid => context.social_memories.find? (fun m => m.to_avatar_id == tid)
        | none => none
      else none
    | none => none
  let target_location : Option WorldLocation :=
    match action.target with
    | some t =>
      if t.target_type == "location" then
        match t.target_id with
        | some tid => context.world_locations.find? (fun l => l.id == tid)
        | none => none
      else none
    | none => none
  let need_satisfaction :=
    calculate_need_satisfaction action.action_type context.state action.target target_location
      * DecisionConfig.NEED_WEIGHT
  let personality_alignment :=
    calculate_personality_alignment action.action_type context.personality target_location
      * DecisionConfig.PERSONALITY_WEIGHT
  let social_memory_bias :=
    calculate_social_bias action.action_type target_avatar social_memory
      * DecisionConfig.SOCIAL_WEIGHT
  let world_affinity :=
    calculate_world_affinity action.action_type context.personality target_location
      * DecisionConfig.AFFINITY_WEIGHT
  let recency_penalty :=
    calculate_recency_penalty now_hours action.action_type target_avatar social_memory
      context.active_cooldowns target_location
      * DecisionConfig.RECENCY_WEIGHT
  let randomness := g * DecisionConfig.RANDOMNESS_WEIGHT
  { action with
    need_satisfaction := need_satisfaction
    personality_alignment := personality_alignment
    social_memory_bias := social_memory_bias
    world_affinity := world_affinity
    recency_penalty := recency_penalty
    randomness := randomness
    utility_score := need_satisfaction + personality_alignment + social_memory_bias
      + world_affinity - recency_penalty + randomness }

/-- `score_all_actions(actions, context)` — one `random.gauss` draw per
action, in list order (`gauss i` is the i-th draw of the stream). -/
def score_all_actions (now_hours : ℚ) (gauss : ℕ → ℚ) (context : AgentContext) :
    List CandidateAction → ℕ → List CandidateAction
  | [], _ => []
  | a :: rest, i => score_action now_hours (gauss i) context a
      :: score_all_actions now_hours gauss context rest (i + 1)

-- ============================================================================
-- ACTION SELECTION  (agent_engine.py, softmax_select)
-- ============================================================================

/-- The cumulative-probability walk of `softmax_select`: returns the first
action whose cumulative probability reaches the draw `r`, `none` if the
loop falls through. -/
def softmaxWalk (r : ℚ) : List (CandidateAction × ℚ) → ℚ → Option CandidateAction
  | [], _ => none
  | (action, prob) :: rest, cumulative =>
    let cumulative := cumulative + prob
    if r ≤ cumulative then some action else softmaxWalk r rest cumulative

/-- `softmax_select(actions, temperature)` — softmax sampling. `exp`
stands for `math.exp` and `r` for the `random.random()` draw; the
`.error` result is the `ValueError("No actions to select from")` raise. -/
def softmax_select (exp : ℚ → ℚ) (actions : List CandidateAction)
    (temperature : ℚ) (r : ℚ) : Except String CandidateAction :=
  match actions with
  | [] => .error "No actions to select from"
  | [a] => .ok a
  | a :: rest =>
    let all := a :: rest
    let scores := all.map (fun act => act.utility_score / temperature)
    let max_score := scores.foldl max (scores.headD 0)  -- max(scores), scores nonempty
    let exp_scores := scores.map (fun s => exp (s - max_score))
    let sum_exp := exp_scores.sum
    let probabilities := exp_scores.map (fun e => e / sum_exp)
    -- the loop returns the walk's pick; the final line falls back to
    -- actions[-1] when the walk falls through
    .ok ((softmaxWalk r (all.zip probabilities) 0).getD (rest.getLastD a))

-- ============================================================================
-- INTERRUPT HANDLING  (agent_engine.py, check_for_interrupts)
-- ============================================================================

/-- Python's `min(locations, key=...)`: the first element attaining the
minimal key (the fold replaces the best only on a strictly smaller key);
since `math.sqrt` is strictly monotone, keying by squared distance picks
the same element as keying by Euclidean distance. -/
def argminBy {α : Type} (key : α → ℤ) : List α → Option α
  | [] => none
  | l :: ls => some (ls.foldl (fun best c => if key c < key best then c else best) l)

/-- The `ActionTarget` built for interrupt actions. -/
def locTarget (l : WorldLocation) : ActionTarget :=
  { target_type := "location", target_id := some l.id, name := some l.name
    x := some l.x, y := some l.y }

/-- The pending-conversation-request loop of `check_for_interrupts`
(lines 796–818): auto-accept player requests; accept robot requests with
probability `agreeableness` (one uniform draw, `robot_draw i`, per robot
request examined). -/
def pendingLoop (agreeableness : ℚ) (robot_draw : ℕ → ℚ) :
    List PendingRequest → ℕ → Option SelectedAction
  | [], _ => none
  | request :: rest, i =>
    if request.initiator_type = "PLAYER" then
      some { action_type := .join_conversation
             target := some { target_type := "avatar", target_id := some request.initiator_id }
             utility_score := 10 }
    else if robot_draw i < agreeableness then
      some { action_type := .join_conversation
             target := some { target_type := "avatar", target_id := some request.initiator_id }
             utility_score := 5 }
    else pendingLoop agreeableness robot_draw rest (i + 1)

/-- The `food_locations` list comprehension of `check_for_interrupts`
(lines 744–746): food locations not in `active_cooldowns`. -/
def eligibleFood (context : AgentContext) : List WorldLocation :=
  context.world_locations.filter (fun l =>
    decide (l.location_type = .food) && !(context.active_cooldowns.contains l.id))

/-- The `rest_locations` list comprehension of `check_for_interrupts`
(lines 767–769): rest areas not in `active_cooldowns`. -/
def eligibleRest (context : AgentContext) : List WorldLocation :=
  context.world_locations.filter (fun l =>
    decide (l.location_type = .rest_area) && !(context.active_cooldowns.contains l.id))

/-- `min(locations, key=lambda l: sqrt((l.x-x)² + (l.y-y)²))` — keyed by
squared distance, which picks the same (first-minimal) element. -/
def closestTo (context : AgentContext) (locations : List WorldLocation) :
    Option WorldLocation :=
  argminBy (fun l => distSq context.x context.y l.x l.y) locations

/-- `check_for_interrupts(context)` — critical hunger, then critical
energy, then pending conversation requests. -/
def check_for_interrupts (robot_draw : ℕ → ℚ) (context : AgentContext) :
    Option SelectedAction :=
  let state := context.state
  -- Critical hunger - must eat
  let hungerResult : Option SelectedAction :=
    if state.hunger > DecisionConfig.CRITICAL_HUNGER then
      match closestTo context (eligibleFood context) with
      | some closest =>
        if distSq context.x context.y closest.x closest.y ≤ 4 then
          some { action_type := .interact_food, target := some (locTarget closest)
                 utility_score := 10 }
        else
          some { action_type := .walk_to_location, target := some (locTarget closest)
                 utility_score := 10 }
      | none => none
    else none
  match hungerResult with
  | some a => some a
  | none =>
    -- Critical energy - must rest
    let energyResult : Option SelectedAction :=
      if state.energy < DecisionConfig.CRITICAL_ENERGY then
        match closestTo context (eligibleRest context) with
        | some closest =>
          if distSq context.x context.y closest.x closest.y ≤ 4 then
            some { action_type := .interact_rest, target := some (locTarget closest)
                   utility_score := 10 }
          else
            some { action_type := .walk_to_location, target := some (locTarget closest)
                   utility_score := 10 }
        | none =>
          some { action_type := .idle, target := none, utility_score := 5
                 duration_seconds := some 30 }
      else none
    match energyResult with
    | some a => some a
    | none =>
      pendingLoop context.personality.agreeableness robot_draw
        context.pending_conversation_requests 0

-- ============================================================================
-- MAIN DECISION FUNCTION  (agent_engine.py, make_decision)
-- ============================================================================

/-- `calculate_action_duration(action_type)` — per-action duration table;
actions not in the dict (avoid_avatar) get the `.get` default 6.0. -/
def calculate_action_duration : ActionType → ℚ
  | .idle => 5
  | .wander => 8
  | .walk_to_location => 10
  | .interact_food => 6
  | .interact_karaoke => 6
  | .interact_rest => 6
  | .interact_social_hub => 6
  | .interact_wander_point => 6
  | .initiate_conversation => 30
  | .join_conversation => 30
  | .leave_conversation => 2
  | .move => 5
  | .stand_still => 3
  | .avoid_avatar => 6

/-- The random draws one call to `make_decision` can consume: the social
wander target (the result of `calculate_social_wander_target`), the
per-candidate Gaussian perturbations, the softmax uniform draw, and the
per-robot-request uniform draws of the interrupt filter. -/
structure EngineRng where
  wander_target : ℤ × ℤ
  gauss : ℕ → ℚ
  softmax_r : ℚ
  robot_draw : ℕ → ℚ

/-- The `scored` list of `make_decision` (line 845): all generated
candidates, scored. -/
def mdScored (now_hours : ℚ) (rng : EngineRng) (context : AgentContext) :
    List CandidateAction :=
  score_all_actions now_hours rng.gauss context
    (generate_candidate_actions rng.wander_target context) 0

/-- The `positive_actions` list of `make_decision` (line 848): scored
candidates with strictly positive utility. -/
def mdPositive (now_hours : ℚ) (rng : EngineRng) (context : AgentContext) :
    List CandidateAction :=
  (mdScored now_hours rng context).filter (fun a => decide (0 < a.utility_score))

/-- The re-bound `scored` of `make_decision` (lines 849–850): filter out
non-positive utility actions unless all are non-positive. -/
def mdChosen (now_hours : ℚ) (rng : EngineRng) (context : AgentContext) :
    List CandidateAction :=
  if (mdPositive now_hours rng context).isEmpty then mdScored now_hours rng context
  else mdPositive now_hours rng context

/-- `make_decision(context)` — interrupts first, otherwise generate,
score, positive-filter (`mdScored`/`mdPositive`/`mdChosen`) and
softmax-select. -/
def make_decision (exp : ℚ → ℚ) (now_hours : ℚ) (rng : EngineRng)
    (context : AgentContext) : Except String SelectedAction :=
  match check_for_interrupts rng.robot_draw context with
  | some interrupt_action => .ok interrupt_action
  | none =>
    match softmax_select exp (mdChosen now_hours rng context)
        DecisionConfig.SOFTMAX_TEMPERATURE rng.softmax_r with
    | .error e => .error e
    | .ok selected =>
      .ok { action_type := selected.action_type
            target := selected.target
            utility_score := selected.utility_score
            duration_seconds := some (calculate_action_duration selected.action_type) }

-- ============================================================================
-- TICK ORCHESTRATOR  (agent_worker.py, process_agent_tick)
-- ============================================================================

/-- The externally observable steps of one tick of
`process_agent_tick` (lock RPCs, store reads/writes, and the in-process
decision pipeline), recorded in execution order. -/
inductive TickEvent where
  | acquireLock
  | buildContext
  | applyDecay
  | decide
  | executeAction
  | updateState
  | logDecision
  | releaseLock
  deriving DecidableEq, Repr

/-- The outcomes of the external calls one tick makes, as oracles: each
either returns (`Except.ok`) or raises (`Except.error`), matching the
store calls of `agent_worker.py`. The decay and decision steps are pure
in-process computation and cannot raise (`make_decision` can only raise
through `softmax_select`, whose empty-input guard is unreachable since the
generator always emits Idle and Wander). -/
structure TickEnv where
  acquire_tick_lock : Except String Bool
  build_agent_context : Except String (Option AgentContext)
  execute_action : Except String AgentState
  update_state : Except String Unit
  log_decision : Except String Unit
  release_tick_lock : Except String Unit
  debug : Bool := false

/-- The `try:` body of `process_agent_tick` (lines 200–289 of
`agent_worker.py`): the result is `.error` when a step raises (to be
caught by the `except:` handler), `.ok none` on the no-lock and no-context
early returns, `.ok (some ())` on success; the trace lists the steps
executed. -/
def runTickBody (env : TickEnv) : Except String (Option Unit) × List TickEvent :=
  -- Try to acquire lock
  match env.acquire_tick_lock with
  | .error e => (.error e, [.acquireLock])
  | .ok false => (.ok none, [.acquireLock])
  | .ok true =>
    -- Build context
    match env.build_agent_context with
    | .error e => (.error e, [.acquireLock, .buildContext])
    | .ok none =>
      -- could not build context: release the lock and return None
      match env.release_tick_lock with
      | .error e => (.error e, [.acquireLock, .buildContext, .releaseLock])
      | .ok _ => (.ok none, [.acquireLock, .buildContext, .releaseLock])
    | .ok (some _) =>
      -- apply_state_decay and make_decision are pure and cannot raise
      match env.execute_action with
      | .error e => (.error e, [.acquireLock, .buildContext, .applyDecay, .decide, .executeAction])
      | .ok _ =>
        match env.update_state with
        | .error e =>
          (.error e, [.acquireLock, .buildContext, .applyDecay, .decide, .executeAction,
            .updateState])
        | .ok _ =>
          let afterLog := [TickEvent.acquireLock, .buildContext, .applyDecay, .decide,
            .executeAction, .updateState] ++ (if env.debug then [TickEvent.logDecision] else [])
          match (if env.debug then env.log_decision else .ok ()) with
          | .error e => (.error e, afterLog)
          | .ok _ =>
            -- Release lock, then return the result dict
            match env.release_tick_lock with
            | .error e => (.error e, afterLog ++ [.releaseLock])
            | .ok _ => (.ok (some ()), afterLog ++ [.releaseLock])

/-- `process_agent_tick(client, avatar_id, debug)` — the `try/except`
wrapper: any exception of the body is caught, a best-effort lock release
is attempted (its own failure swallowed by the inner `try/except: pass`),
and `None` is returned; so no exception ever propagates to the caller. -/
def process_agent_tick (env : TickEnv) : Option Unit × List TickEvent :=
  match runTickBody env with
  | (.ok r, trace) => (r, trace)
  | (.error _, trace) => (none, trace ++ [.releaseLock])

-- ============================================================================
-- HELPER LEMMAS
-- ============================================================================

theorem foldl_min_mem {α : Type} (key : α → ℤ) (ls : List α) (a : α) :
    ls.foldl (fun best c => if key c < key best then c else best) a ∈ a :: ls := by
  induction ls generalizing a with
  | nil => simp
  | cons c cs ih =>
    simp only [List.foldl_cons]
    by_cases hc : key c < key a
    · rw [if_pos hc]
      rcases List.mem_cons.mp (ih c) with h1 | h1
      · simp [h1]
      · simp [List.mem_cons, h1]
    · rw [if_neg hc]
      rcases List.mem_cons.mp (ih a) with h1 | h1
      · simp [h1]
      · simp [List.mem_cons, h1]

theorem foldl_min_le {α : Type} (key : α → ℤ) (ls : List α) (a : α) :
    key (ls.foldl (fun best c => if key c < key best then c else best) a) ≤ key a ∧
    ∀ b ∈ ls, key (ls.foldl (fun best c => if key c < key best then c else best) a) ≤ key b := by
  induction ls generalizing a with
  | nil => simp
  | cons c cs ih =>
    simp only [List.foldl_cons]
    by_cases hc : key c < key a
    · rw [if_pos hc]
      refine ⟨le_trans (ih c).1 (le_of_lt hc), ?_⟩
      intro b hb
      rcases List.mem_cons.mp hb with h1 | h1
      · rw [h1]; exact (ih c).1
      · exact (ih c).2 b h1
    · rw [if_neg hc]
      refine ⟨(ih a).1, ?_⟩
      intro b hb
      rcases List.mem_cons.mp hb with h1 | h1
      · rw [h1]; exact le_trans (ih a).1 (le_of_not_lt hc)
      · exact (ih a).2 b h1

theorem argminBy_mem {α : Type} (key : α → ℤ) (ls : List α) (a : α)
    (h : argminBy key ls = some a) : a ∈ ls := by
  cases ls with
  | nil => simp [argminBy] at h
  | cons x xs =>
    simp only [argminBy, Option.some.injEq] at h
    subst h
    exact foldl_min_mem key xs x

theorem argminBy_le {α : Type} (key : α → ℤ) (ls : List α) (a : α)
    (h : argminBy key ls = some a) : ∀ b ∈ ls, key a ≤ key b := by
  cases ls with
  | nil => simp [argminBy] at h
  | cons x xs =>
    simp only [argminBy, Option.some.injEq] at h
    subst h
    intro b hb
    rcases List.mem_cons.mp hb with h1 | h1
    · rw [h1]; exact (foldl_min_le key xs x).1
    · exact (foldl_min_le key xs x).2 b h1

theorem argminBy_eq_some {α : Type} (key : α → ℤ) (ls : List α) (hne : ls ≠ []) :
    ∃ a, argminBy key ls = some a := by
  cases ls with
  | nil => exact absurd rfl hne
  | cons x xs => exact ⟨_, rfl⟩

theorem score_action_preserves (now g : ℚ) (context : AgentContext) (a : CandidateAction) :
    (score_action now g context a).action_type = a.action_type ∧
    (score_action now g context a).target = a.target :=
  ⟨rfl, rfl⟩

theorem score_all_actions_mem (now : ℚ) (gauss : ℕ → ℚ) (context : AgentContext) :
    ∀ (l : List CandidateAction) (i : ℕ) (s : CandidateAction),
    s ∈ score_all_actions now gauss context l i →
    ∃ c ∈ l, s.action_type = c.action_type ∧ s.target = c.target := by
  intro l
  induction l with
  | nil => intro i s hs; simp [score_all_actions] at hs
  | cons a rest ih =>
    intro i s hs
    simp only [score_all_actions, List.mem_cons] at hs
    rcases hs with h | h
    · exact ⟨a, List.mem_cons_self a rest, by simp [h, score_action_preserves]⟩
    · obtain ⟨c, hc, hp⟩ := ih (i + 1) s h
      exact ⟨c, List.mem_cons_of_mem a hc, hp⟩

theorem score_all_actions_ne_nil (now : ℚ) (gauss : ℕ → ℚ) (context : AgentContext)
    (l : List CandidateAction) (i : ℕ) (h : l ≠ []) :
    score_all_actions now gauss context l i ≠ [] := by
  cases l with
  | nil => exact absurd rfl h
  | cons a rest => simp [score_all_actions]

theorem softmaxWalk_mem (r : ℚ) (ps : List (CandidateAction × ℚ)) (cum : ℚ)
    (a : CandidateAction) (h : softmaxWalk r ps cum = some a) : ∃ p ∈ ps, p.1 = a := by
  induction ps generalizing cum with
  | nil => simp [softmaxWalk] at h
  | cons p rest ih =>
    obtain ⟨action, prob⟩ := p
    simp only [softmaxWalk] at h
    by_cases hr : r ≤ cum + prob
    · simp only [if_pos hr, Option.some.injEq] at h
      exact ⟨(action, prob), List.mem_cons_self _ _, h⟩
    · simp only [if_neg hr] at h
      obtain ⟨p, hp, hpa⟩ := ih (cum + prob) h
      exact ⟨p, List.mem_cons_of_mem _ hp, hpa⟩

theorem getLastD_mem_cons' {α : Type} (l : List α) (a : α) : l.getLastD a ∈ a :: l := by
  induction l generalizing a with
  | nil => simp
  | cons x xs ih =>
    have h : (x :: xs).getLastD a = xs.getLastD x := by
      cases xs <;> rfl
    rw [h]
    exact List.mem_cons_of_mem a (ih x)

theorem softmax_select_ok (exp : ℚ → ℚ) (actions : List CandidateAction)
    (temperature r : ℚ) (h : actions ≠ []) :
    ∃ a ∈ actions, softmax_select exp actions temperature r = .ok a := by
  match actions with
  | [] => exact absurd rfl h
  | [a] => exact ⟨a, List.mem_cons_self _ _, rfl⟩
  | a :: b :: rest =>
    simp only [softmax_select]
    have key : ∀ (o : Option CandidateAction) (fb : CandidateAction),
        fb ∈ a :: b :: rest → (∀ c, o = some c → c ∈ a :: b :: rest) →
        ∃ x ∈ a :: b :: rest,
          (Except.ok (o.getD fb) : Except String CandidateAction) = .ok x := by
      intro o fb hfb ho
      cases o with
      | none => exact ⟨fb, hfb, rfl⟩
      | some c => exact ⟨c, ho c rfl, rfl⟩
    refine key _ _ (getLastD_mem_cons' (b :: rest) a) ?_
    intro c hc
    obtain ⟨⟨pa, pp⟩, hp, hpa⟩ := softmaxWalk_mem r _ 0 c hc
    exact hpa ▸ (List.of_mem_zip hp).1

-- ============================================================================
-- CLAIM THEOREMS
-- ============================================================================

/-- C4: for every state and every effects mapping, including arbitrarily
large positive or negative deltas, `apply_interaction_effects` keeps
energy, hunger and loneliness in [0,1] and mood in [-1,1]; and every call
to `update_social_memory` leaves the stored sentiment in [-1,1] and
familiarity in [0,1] (both on the update path and on first creation) and
increases `interaction_count` by exactly 1. -/
theorem effects_and_social_memory_clamped
    (state : AgentState) (effects : List (String × ℚ))
    (existing : Option SocialMemory) (fromId toId : String)
    (sentiment_delta familiarity_delta : ℚ) (topic : Option String)
    (now : ℚ) (new_id : String) :
    (0 ≤ (apply_interaction_effects state effects).energy ∧
     (apply_interaction_effects state effects).energy ≤ 1 ∧
     0 ≤ (apply_interaction_effects state effects).hunger ∧
     (apply_interaction_effects state effects).hunger ≤ 1 ∧
     0 ≤ (apply_interaction_effects state effects).loneliness ∧
     (apply_interaction_effects state effects).loneliness ≤ 1 ∧
     -1 ≤ (apply_interaction_effects state effects).mood ∧
     (apply_interaction_effects state effects).mood ≤ 1) ∧
    (-1 ≤ (update_social_memory existing fromId toId sentiment_delta
        familiarity_delta topic now new_id).sentiment ∧
     (update_social_memory existing fromId toId sentiment_delta
        familiarity_delta topic now new_id).sentiment ≤ 1 ∧
     0 ≤ (update_social_memory existing fromId toId sentiment_delta
        familiarity_delta topic now new_id).familiarity ∧
     (update_social_memory existing fromId toId sentiment_delta
        familiarity_delta topic now new_id).familiarity ≤ 1 ∧
     (update_social_memory existing fromId toId sentiment_delta
        familiarity_delta topic now new_id).interaction_count =
       (match existing with | some e => e.interaction_count | none => 0) + 1) := by
  constructor
  · simp only [apply_interaction_effects]
    refine ⟨le_max_left 0 _, max_le (by norm_num) (min_le_left 1 _),
      le_max_left 0 _, max_le (by norm_num) (min_le_left 1 _),
      le_max_left 0 _, max_le (by norm_num) (min_le_left 1 _),
      le_max_left (-1) _, max_le (by norm_num) (min_le_left 1 _)⟩
  · cases existing with
    | some e =>
      simp only [update_social_memory]
      exact ⟨le_max_left (-1) _, max_le (by norm_num) (min_le_left 1 _),
        le_max_left 0 _, max_le (by norm_num) (min_le_left 1 _), by trivial⟩
    | none =>
      simp only [update_social_memory]
      exact ⟨le_max_left (-1) _, max_le (by norm_num) (min_le_left 1 _),
        le_max_left 0 _, max_le (by norm_num) (min_le_left 1 _), by trivial⟩

/-- A concrete need state used to exercise `apply_state_decay`. -/
def decayProbeState : AgentState :=
  { avatar_id := "probe", energy := 0.5, hunger := 0.5, loneliness := 0.5, mood := 1/2 }

/-- C5 counterexample: at `elapsed_seconds = 60000` (tick fraction 200)
the mood factor `1 − 0.01·200 = −1` is negative, so a positive mood 1/2
becomes −1/2 — the sign flips, refuting "the new mood has the same sign as
the old" for arbitrary `elapsed_seconds ≥ 0`. -/
theorem apply_state_decay_mood_sign_flip :
    0 < decayProbeState.mood ∧ (apply_state_decay decayProbeState 60000).mood < 0 := by
  constructor
  · norm_num [decayProbeState]
  · norm_num [apply_state_decay, decayProbeState]

/-- C5 (amended): for every state and `elapsed_seconds ≥ 0` with tick
fraction `f = elapsed_seconds/300`, `apply_state_decay` returns
`energy = max 0 (energy − 0.02 f)`, `hunger = min 1 (hunger + 0.015 f)`,
`loneliness = min 1 (loneliness + 0.02 f)` and mood multiplied by
`(1 − 0.01 f)`; the mood update keeps the sign and shrinks the magnitude
only for `elapsed_seconds ≤ 30000` (where the factor stays in [0,1] —
beyond that the factor is negative and the sign flips). -/
theorem apply_state_decay_spec (state : AgentState) (elapsed_seconds : ℚ)
    (hel : 0 ≤ elapsed_seconds) :
    (apply_state_decay state elapsed_seconds).energy
        = max 0 (state.energy - 0.02 * (elapsed_seconds / 300)) ∧
    (apply_state_decay state elapsed_seconds).hunger
        = min 1 (state.hunger + 0.015 * (elapsed_seconds / 300)) ∧
    (apply_state_decay state elapsed_seconds).loneliness
        = min 1 (state.loneliness + 0.02 * (elapsed_seconds / 300)) ∧
    (apply_state_decay state elapsed_seconds).mood
        = state.mood * (1 - 0.01 * (elapsed_seconds / 300)) ∧
    (elapsed_seconds ≤ 30000 →
      (0 ≤ state.mood →
        0 ≤ (apply_state_decay state elapsed_seconds).mood ∧
        (apply_state_decay state elapsed_seconds).mood ≤ state.mood) ∧
      (state.mood ≤ 0 →
        state.mood ≤ (apply_state_decay state elapsed_seconds).mood ∧
        (apply_state_decay state elapsed_seconds).mood ≤ 0)) := by
  refine ⟨rfl, rfl, rfl, rfl, ?_⟩
  intro hbound
  have hfac0 : 0 ≤ 1 - 0.01 * (elapsed_seconds / 300) := by linarith
  have hfac1 : 1 - 0.01 * (elapsed_seconds / 300) ≤ 1 := by linarith
  constructor
  · intro hm
    constructor
    · exact mul_nonneg hm hfac0
    · calc state.mood * (1 - 0.01 * (elapsed_seconds / 300)) ≤ state.mood * 1 :=
            mul_le_mul_of_nonneg_left hfac1 hm
        _ = state.mood := mul_one _
  · intro hm
    constructor
    · calc state.mood = state.mood * 1 := (mul_one _).symm
        _ ≤ state.mood * (1 - 0.01 * (elapsed_seconds / 300)) :=
            mul_le_mul_of_nonpos_left hfac1 hm
    · exact mul_nonpos_of_nonpos_of_nonneg hm hfac0

/-- Witness for the amended C5 at the concrete state `decayProbeState`
and `elapsed_seconds = 300`. -/
theorem apply_state_decay_spec_witness :
    (0:ℚ) ≤ 300 ∧ (300:ℚ) ≤ 30000 ∧ 0 ≤ decayProbeState.mood ∧
    (0 ≤ (apply_state_decay decayProbeState 300).mood ∧
     (apply_state_decay decayProbeState 300).mood ≤ decayProbeState.mood) :=
  ⟨by norm_num, by norm_num, by norm_num [decayProbeState],
    ((apply_state_decay_spec decayProbeState 300 (by norm_num)).2.2.2.2
      (by norm_num)).1 (by norm_num [decayProbeState])⟩

/-- C6: `softmax_select` raises `ValueError` on an empty candidate list,
and on a singleton list returns its element unconditionally — for every
outcome `r` of the random draw (no sampling happens). -/
theorem softmax_select_empty_and_singleton
    (exp : ℚ → ℚ) (temperature r : ℚ) (a : CandidateAction) :
    softmax_select exp [] temperature r = .error "No actions to select from" ∧
    softmax_select exp [a] temperature r = .ok a :=
  ⟨rfl, rfl⟩

/-- C8: for every location-directed action, `calculate_world_affinity` is
monotone (non-decreasing) in the personality's affinity for the target
location's category; at affinity 0 it is strictly negative (−0.3), and at
affinity 1 it attains 1.2, the maximum over affinities in [0,1]. -/
theorem calculate_world_affinity_curve
    (action : ActionType) (p q : AgentPersonality) (loc : WorldLocation)
    (hact : action ∈ [ActionType.walk_to_location, .interact_food, .interact_karaoke,
        .interact_rest, .interact_social_hub, .interact_wander_point]) :
    (affinityFor p loc ≤ affinityFor q loc →
      calculate_world_affinity action p (some loc)
        ≤ calculate_world_affinity action q (some loc)) ∧
    (affinityFor p loc = 0 → calculate_world_affinity action p (some loc) < 0) ∧
    (affinityFor p loc = 1 → calculate_world_affinity action p (some loc) = 1.2) ∧
    (0 ≤ affinityFor p loc → affinityFor p loc ≤ 1 →
      calculate_world_affinity action p (some loc) ≤ 1.2) := by
  simp only [calculate_world_affinity, if_pos hact]
  refine ⟨?_, ?_, ?_, ?_⟩
  · intro hab
    split_ifs <;> linarith
  · intro h0
    rw [h0]
    norm_num
  · intro h1
    rw [h1]
    norm_num
  · intro ha0 ha1
    split_ifs <;> linarith

/-- Concrete personality with a single given affinity for "food". -/
def affinityProbe (v : ℚ) : AgentPersonality :=
  { avatar_id := "probe", sociability := 0, curiosity := 0, agreeableness := 0
    energy_baseline := 0, world_affinities := [("food", v)] }

/-- Concrete food location for the affinity-curve witness. -/
def affinityProbeLoc : WorldLocation :=
  { id := "L", name := "diner", location_type := .food, x := 0, y := 0 }

/-- Witness for C8 at concrete affinities 0, 0.4, 0.6 and 1. -/
theorem calculate_world_affinity_curve_witness :
    (calculate_world_affinity .interact_food (affinityProbe 0.4) (some affinityProbeLoc)
      ≤ calculate_world_affinity .interact_food (affinityProbe 0.6) (some affinityProbeLoc)) ∧
    (calculate_world_affinity .interact_food (affinityProbe 0) (some affinityProbeLoc) < 0) ∧
    (calculate_world_affinity .interact_food (affinityProbe 1) (some affinityProbeLoc) = 1.2) ∧
    (calculate_world_affinity .interact_food (affinityProbe 0.4) (some affinityProbeLoc) ≤ 1.2) :=
  ⟨(calculate_world_affinity_curve .interact_food (affinityProbe 0.4) (affinityProbe 0.6)
      affinityProbeLoc (by simp)).1
      (by norm_num [affinityFor, dictGetD, affinityProbe, affinityProbeLoc, LocationType.value]),
   (calculate_world_affinity_curve .interact_food (affinityProbe 0) (affinityProbe 0)
      affinityProbeLoc (by simp)).2.1
      (by norm_num [affinityFor, dictGetD, affinityProbe, affinityProbeLoc, LocationType.value]),
   (calculate_world_affinity_curve .interact_food (affinityProbe 1) (affinityProbe 1)
      affinityProbeLoc (by simp)).2.2.1
      (by norm_num [affinityFor, dictGetD, affinityProbe, affinityProbeLoc, LocationType.value]),
   (calculate_world_affinity_curve .interact_food (affinityProbe 0.4) (affinityProbe 0.4)
      affinityProbeLoc (by simp)).2.2.2
      (by norm_num [affinityFor, dictGetD, affinityProbe, affinityProbeLoc, LocationType.value])
      (by norm_num [affinityFor, dictGetD, affinityProbe, affinityProbeLoc, LocationType.value])⟩

/-- C2: `process_agent_tick` lock discipline — (a) when
`acquire_tick_lock` returns `False` the tick returns `None` having
performed nothing but the acquire attempt (no agent state is read or
mutated); (b) when it returns `True`, `release_tick_lock` is invoked
before the function returns on every path; (c) a failure of the release
call itself never propagates: the function still returns normally (with
`None`). -/
theorem process_agent_tick_lock_discipline (env : TickEnv) :
    (env.acquire_tick_lock = .ok false →
      process_agent_tick env = (none, [TickEvent.acquireLock])) ∧
    (env.acquire_tick_lock = .ok true →
      TickEvent.releaseLock ∈ (process_agent_tick env).2) ∧
    (∀ e, env.release_tick_lock = .error e → (process_agent_tick env).1 = none) := by
  obtain ⟨acq, build, exec, upd, logd, rel, dbg⟩ := env
  refine ⟨?_, ?_, ?_⟩
  · intro h
    simp only at h
    simp [process_agent_tick, runTickBody, h]
  · intro h
    simp only at h
    rcases build with e | ctx
    · simp [process_agent_tick, runTickBody, h]
    · rcases ctx with _ | c
      · rcases rel with e | u <;> simp [process_agent_tick, runTickBody, h]
      · rcases exec with e | st
        · simp [process_agent_tick, runTickBody, h]
        · rcases upd with e | u
          · simp [process_agent_tick, runTickBody, h]
          · rcases dbg with _ | _
            · rcases rel with e | u <;> simp [process_agent_tick, runTickBody, h]
            · rcases logd with e | u
              · simp [process_agent_tick, runTickBody, h]
              · rcases rel with e | u <;> simp [process_agent_tick, runTickBody, h]
  · intro e he
    simp only at he
    subst he
    rcases acq with e' | b
    · simp [process_agent_tick, runTickBody]
    · rcases b with _ | _
      · simp [process_agent_tick, runTickBody]
      · rcases build with e' | ctx
        · simp [process_agent_tick, runTickBody]
        · rcases ctx with _ | c
          · simp [process_agent_tick, runTickBody]
          · rcases exec with e' | st
            · simp [process_agent_tick, runTickBody]
            · rcases upd with e' | u
              · simp [process_agent_tick, runTickBody]
              · rcases dbg with _ | _
                · simp [process_agent_tick, runTickBody]
                · rcases logd with e' | u <;> simp [process_agent_tick, runTickBody]

/-- Minimal concrete context for the lock-discipline witness. -/
def tickProbeContext : AgentContext :=
  { avatar_id := "probe", x := 0, y := 0
    personality := { avatar_id := "probe", sociability := 0.5, curiosity := 0.5
                     agreeableness := 0.5, energy_baseline := 0.5, world_affinities := [] }
    state := decayProbeState }

/-- A tick environment in which every external call succeeds. -/
def tickEnvOk : TickEnv :=
  { acquire_tick_lock := .ok true
    build_agent_context := .ok (some tickProbeContext)
    execute_action := .ok decayProbeState
    update_state := .ok ()
    log_decision := .ok ()
    release_tick_lock := .ok () }

/-- The same environment under lock contention. -/
def tickEnvBusy : TickEnv := { tickEnvOk with acquire_tick_lock := .ok false }

/-- The same environment with a failing lock release. -/
def tickEnvRelFail : TickEnv := { tickEnvOk with release_tick_lock := .error "release failed" }

/-- Witness for C2 at the three concrete environments. -/
theorem process_agent_tick_lock_discipline_witness :
    process_agent_tick tickEnvBusy = (none, [TickEvent.acquireLock]) ∧
    TickEvent.releaseLock ∈ (process_agent_tick tickEnvOk).2 ∧
    (process_agent_tick tickEnvRelFail).1 = none :=
  ⟨(process_agent_tick_lock_discipline tickEnvBusy).1 rfl,
   (process_agent_tick_lock_discipline tickEnvOk).2.1 rfl,
   (process_agent_tick_lock_discipline tickEnvRelFail).2.2 "release failed" rfl⟩

theorem mem_eligibleFood (context : AgentContext) (l : WorldLocation) :
    l ∈ eligibleFood context ↔
    l ∈ context.world_locations ∧ l.location_type = .food ∧
      l.id ∉ context.active_cooldowns := by
  simp [eligibleFood, List.mem_filter, List.contains, and_assoc]

theorem mem_eligibleRest (context : AgentContext) (l : WorldLocation) :
    l ∈ eligibleRest context ↔
    l ∈ context.world_locations ∧ l.location_type = .rest_area ∧
      l.id ∉ context.active_cooldowns := by
  simp [eligibleRest, List.mem_filter, List.contains, and_assoc]

/-- C1: for every context with hunger strictly above the critical
threshold 0.85 and at least one food location not on cooldown,
`make_decision` returns the critical-hunger interrupt action — walk to a
food location, or interact with it when within (Euclidean) distance 2
(squared distance ≤ 4) — for every outcome of the random number
generator (the result does not depend on `rng`), never the normal
scorer's output. -/
theorem make_decision_critical_hunger (exp : ℚ → ℚ) (now_hours : ℚ) (rng : EngineRng)
    (context : AgentContext)
    (hh : context.state.hunger > DecisionConfig.CRITICAL_HUNGER)
    (hf : ∃ l ∈ context.world_locations, l.location_type = .food ∧
      l.id ∉ context.active_cooldowns) :
    ∃ l ∈ context.world_locations, l.location_type = .food ∧
      l.id ∉ context.active_cooldowns ∧
      ((distSq context.x context.y l.x l.y ≤ 4 ∧
        make_decision exp now_hours rng context =
          .ok { action_type := .interact_food, target := some (locTarget l)
                utility_score := 10 }) ∨
       (¬ distSq context.x context.y l.x l.y ≤ 4 ∧
        make_decision exp now_hours rng context =
          .ok { action_type := .walk_to_location, target := some (locTarget l)
                utility_score := 10 })) := by
  obtain ⟨l0, hl0, hfood0, hcd0⟩ := hf
  have hne : eligibleFood context ≠ [] :=
    List.ne_nil_of_mem ((mem_eligibleFood context l0).2 ⟨hl0, hfood0, hcd0⟩)
  obtain ⟨closest, hc⟩ :=
    argminBy_eq_some (fun l => distSq context.x context.y l.x l.y) _ hne
  have hcmem := (mem_eligibleFood context closest).1 (argminBy_mem _ _ _ hc)
  refine ⟨closest, hcmem.1, hcmem.2.1, hcmem.2.2, ?_⟩
  by_cases hd : distSq context.x context.y closest.x closest.y ≤ 4
  · left
    refine ⟨hd, ?_⟩
    simp [make_decision, check_for_interrupts, closestTo, hc, hh, hd]
  · right
    refine ⟨hd, ?_⟩
    simp [make_decision, check_for_interrupts, closestTo, hc, hh, hd]

/-- Witness context for C1/C10: hunger 0.9, two food locations (ids
"far", "near") and the nearer one must be chosen. -/
def hungerProbeContext : AgentContext :=
  { avatar_id := "probe", x := 3, y := 3
    personality := { avatar_id := "probe", sociability := 0.5, curiosity := 0.5
                     agreeableness := 0.5, energy_baseline := 0.5, world_affinities := [] }
    state := { avatar_id := "probe", energy := 0.5, hunger := 0.9
               loneliness := 0.5, mood := 0.2 }
    world_locations :=
      [{ id := "far", name := "cafe", location_type := .food, x := 10, y := 10 },
       { id := "near", name := "stand", location_type := .food, x := 4, y := 3 }] }

/-- Witness for C1 at `hungerProbeContext` (the nearer food stand is at
squared distance 1, so the interrupt interacts directly). -/
theorem make_decision_critical_hunger_witness :
    hungerProbeContext.state.hunger > DecisionConfig.CRITICAL_HUNGER ∧
    (∃ l ∈ hungerProbeContext.world_locations, l.location_type = .food ∧
      l.id ∉ hungerProbeContext.active_cooldowns) ∧
    ∃ l ∈ hungerProbeContext.world_locations, l.location_type = .food ∧
      l.id ∉ hungerProbeContext.active_cooldowns ∧
      ((distSq hungerProbeContext.x hungerProbeContext.y l.x l.y ≤ 4 ∧
        make_decision (fun _ => 1) 0 ⟨(5, 5), fun _ => 0, 0.5, fun _ => 1⟩ hungerProbeContext =
          .ok { action_type := .interact_food, target := some (locTarget l)
                utility_score := 10 }) ∨
       (¬ distSq hungerProbeContext.x hungerProbeContext.y l.x l.y ≤ 4 ∧
        make_decision (fun _ => 1) 0 ⟨(5, 5), fun _ => 0, 0.5, fun _ => 1⟩ hungerProbeContext =
          .ok { action_type := .walk_to_location, target := some (locTarget l)
                utility_score := 10 })) :=
  ⟨by norm_num [hungerProbeContext, DecisionConfig.CRITICAL_HUNGER],
   ⟨{ id := "near", name := "stand", location_type := .food, x := 4, y := 3 },
     by simp [hungerProbeContext], rfl, by simp [hungerProbeContext]⟩,
   make_decision_critical_hunger (fun _ => 1) 0 ⟨(5, 5), fun _ => 0, 0.5, fun _ => 1⟩
     hungerProbeContext
     (by norm_num [hungerProbeContext, DecisionConfig.CRITICAL_HUNGER])
     ⟨{ id := "near", name := "stand", location_type := .food, x := 4, y := 3 },
       by simp [hungerProbeContext], rfl, by simp [hungerProbeContext]⟩⟩

/-- C10: when the critical-hunger interrupt fires with at least one
eligible (unblocked) food location, the returned action targets an
eligible food location at minimum Euclidean distance from the agent
(minimum squared distance — `sqrt` is monotone); likewise for the
critical-energy interrupt and rest locations (which is reached only when
the hunger branch did not return). -/
theorem check_for_interrupts_picks_closest (robot_draw : ℕ → ℚ) (context : AgentContext) :
    (context.state.hunger > DecisionConfig.CRITICAL_HUNGER → eligibleFood context ≠ [] →
      ∃ l ∈ eligibleFood context,
        (∀ l2 ∈ eligibleFood context,
          distSq context.x context.y l.x l.y ≤ distSq context.x context.y l2.x l2.y) ∧
        ∃ a, check_for_interrupts robot_draw context = some a ∧
          a.target = some (locTarget l)) ∧
    ((¬ context.state.hunger > DecisionConfig.CRITICAL_HUNGER ∨ eligibleFood context = []) →
      context.state.energy < DecisionConfig.CRITICAL_ENERGY → eligibleRest context ≠ [] →
      ∃ l ∈ eligibleRest context,
        (∀ l2 ∈ eligibleRest context,
          distSq context.x context.y l.x l.y ≤ distSq context.x context.y l2.x l2.y) ∧
        ∃ a, check_for_interrupts robot_draw context = some a ∧
          a.target = some (locTarget l)) := by
  constructor
  · intro hh hne
    obtain ⟨closest, hc⟩ :=
      argminBy_eq_some (fun l => distSq context.x context.y l.x l.y) _ hne
    refine ⟨closest, argminBy_mem _ _ _ hc, argminBy_le _ _ _ hc, ?_⟩
    by_cases hd : distSq context.x context.y closest.x closest.y ≤ 4
    · refine ⟨{ action_type := .interact_food, target := some (locTarget closest), utility_score := 10 }, ?_, rfl⟩
      simp [check_for_interrupts, closestTo, hc, hh, hd]
    · refine ⟨{ action_type := .walk_to_location, target := some (locTarget closest), utility_score := 10 }, ?_, rfl⟩
      simp [check_for_interrupts, closestTo, hc, hh, hd]
  · intro hno he hne
    obtain ⟨closest, hc⟩ :=
      argminBy_eq_some (fun l => distSq context.x context.y l.x l.y) _ hne
    have hhunger : (if context.state.hunger > DecisionConfig.CRITICAL_HUNGER then
        match closestTo context (eligibleFood context) with
        | some closest =>
          if distSq context.x context.y closest.x closest.y ≤ 4 then
            some { action_type := .interact_food, target := some (locTarget closest)
                   utility_score := (10:ℚ) }
          else
            some { action_type := .walk_to_location, target := some (locTarget closest)
                   utility_score := (10:ℚ) }
        | none => none
      else none) = (none : Option SelectedAction) := by
      rcases hno with hno | hno
      · simp [hno]
      · simp [closestTo, hno, argminBy]
    refine ⟨closest, argminBy_mem _ _ _ hc, argminBy_le _ _ _ hc, ?_⟩
    by_cases hd : distSq context.x context.y closest.x closest.y ≤ 4
    · refine ⟨{ action_type := .interact_rest, target := some (locTarget closest), utility_score := 10 }, ?_, rfl⟩
      simp only [check_for_interrupts]
      rw [hhunger]
      simp [closestTo, hc, he, hd]
    · refine ⟨{ action_type := .walk_to_location, target := some (locTarget closest), utility_score := 10 }, ?_, rfl⟩
      simp only [check_for_interrupts]
      rw [hhunger]
      simp [closestTo, hc, he, hd]

/-- Witness context for the rest half of C10: energy 0.05, hunger below
critical, two rest areas. -/
def energyProbeContext : AgentContext :=
  { avatar_id := "probe", x := 3, y := 3
    personality := { avatar_id := "probe", sociability := 0.5, curiosity := 0.5
                     agreeableness := 0.5, energy_baseline := 0.5, world_affinities := [] }
    state := { avatar_id := "probe", energy := 0.05, hunger := 0.5
               loneliness := 0.5, mood := 0.2 }
    world_locations :=
      [{ id := "bench-far", name := "bench", location_type := .rest_area, x := 20, y := 20 },
       { id := "bench-near", name := "cot", location_type := .rest_area, x := 5, y := 3 }] }

/-- Witness for C10 at `hungerProbeContext` (hunger branch) and
`energyProbeContext` (rest branch). -/
theorem check_for_interrupts_picks_closest_witness :
    (∃ l ∈ eligibleFood hungerProbeContext,
      (∀ l2 ∈ eligibleFood hungerProbeContext,
        distSq hungerProbeContext.x hungerProbeContext.y l.x l.y
          ≤ distSq hungerProbeContext.x hungerProbeContext.y l2.x l2.y) ∧
      ∃ a, check_for_interrupts (fun _ => 1) hungerProbeContext = some a ∧
        a.target = some (locTarget l)) ∧
    (∃ l ∈ eligibleRest energyProbeContext,
      (∀ l2 ∈ eligibleRest energyProbeContext,
        distSq energyProbeContext.x energyProbeContext.y l.x l.y
          ≤ distSq energyProbeContext.x energyProbeContext.y l2.x l2.y) ∧
      ∃ a, check_for_interrupts (fun _ => 1) energyProbeContext = some a ∧
        a.target = some (locTarget l)) :=
  ⟨(check_for_interrupts_picks_closest (fun _ => 1) hungerProbeContext).1
      (by norm_num [hungerProbeContext, DecisionConfig.CRITICAL_HUNGER])
      (by simp [eligibleFood, hungerProbeContext]),
   (check_for_interrupts_picks_closest (fun _ => 1) energyProbeContext).2
      (Or.inl (by norm_num [energyProbeContext, DecisionConfig.CRITICAL_HUNGER]))
      (by norm_num [energyProbeContext, DecisionConfig.CRITICAL_ENERGY])
      (by simp [eligibleRest, energyProbeContext])⟩

/-- Exhaustive characterization of the candidates
`generate_candidate_actions` can emit: the Idle head, the Wander
candidate, a location action for a non-cooldown location, an Avoid or
Initiate-Conversation action for a nearby avatar, or Leave-Conversation. -/
theorem mem_generate_cases (wt : ℤ × ℤ) (context : AgentContext) (c : CandidateAction)
    (hc : c ∈ generate_candidate_actions wt context) :
    c = { action_type := .idle, target := none } ∨
    c = { action_type := .wander
          target := some { target_type := "position"
                           x := some wt.1, y := some wt.2 } } ∨
    (∃ location ∈ context.world_locations, location.id ∉ context.active_cooldowns ∧
      ∃ at_ ∈ [ActionType.walk_to_location, .interact_food, .interact_karaoke,
          .interact_rest, .interact_social_hub, .interact_wander_point],
        c = { action_type := at_
              target := some { target_type := "location", target_id := some location.id
                               name := some location.name
                               x := some location.x, y := some location.y } }) ∨
    (∃ nearby ∈ context.nearby_avatars,
      c = { action_type := .avoid_avatar
            target := some { target_type := "avatar"
                             target_id := some nearby.avatar_id
                             name := some ("away from " ++ nearby.avatar_id.take 8)
                             x := some (fleePosition context.x context.y nearby).1
                             y := some (fleePosition context.x context.y nearby).2 } } ∨
      c = { action_type := .initiate_conversation
            target := some { target_type := "avatar"
                             target_id := some nearby.avatar_id
                             x := some nearby.x, y := some nearby.y } }) ∨
    c = { action_type := .leave_conversation, target := none } := by
  simp only [generate_candidate_actions, List.mem_append, List.mem_cons,
    List.not_mem_nil, or_false, or_assoc] at hc
  rcases hc with rfl | hc
  · exact Or.inl rfl
  rcases hc with rfl | hc
  · exact Or.inr (Or.inl rfl)
  rcases hc with hc | hc
  · -- location actions
    rw [List.mem_filterMap] at hc
    obtain ⟨location, hl, hf⟩ := hc
    by_cases hcd : location.id ∈ context.active_cooldowns
    · rw [if_pos hcd] at hf
      exact absurd hf (by simp)
    · rw [if_neg hcd] at hf
      refine Or.inr (Or.inr (Or.inl ⟨location, hl, hcd, ?_⟩))
      by_cases hd : distSq context.x context.y location.x location.y ≤ 4
      · rw [if_pos hd] at hf
        split at hf
        · injection hf with h; exact ⟨.interact_food, by simp, h.symm⟩
        · injection hf with h; exact ⟨.interact_karaoke, by simp, h.symm⟩
        · injection hf with h; exact ⟨.interact_rest, by simp, h.symm⟩
        · injection hf with h; exact ⟨.interact_social_hub, by simp, h.symm⟩
        · injection hf with h; exact ⟨.interact_wander_point, by simp, h.symm⟩
        · exact absurd hf (by simp)
      · rw [if_neg hd] at hf
        injection hf with h
        exact ⟨.walk_to_location, by simp, h.symm⟩
  rcases hc with hc | hc
  · -- social actions
    by_cases hconv : context.in_conversation
    · rw [if_pos hconv] at hc
      exact absurd hc (by simp)
    · rw [if_neg hconv] at hc
      rw [List.mem_filterMap] at hc
      obtain ⟨nearby, hn, hf⟩ := hc
      refine Or.inr (Or.inr (Or.inr (Or.inl ⟨nearby, hn, ?_⟩)))
      split at hf
      · injection hf with h
        exact Or.inl h.symm
      · split at hf
        · injection hf with h
          exact Or.inr h.symm
        · exact absurd hf (by simp)
  · -- leave conversation
    by_cases hconv : context.in_conversation
    · rw [if_pos hconv] at hc
      rcases List.mem_cons.mp hc with rfl | hc
      · exact Or.inr (Or.inr (Or.inr (Or.inr rfl)))
      · exact absurd hc (by simp)
    · rw [if_neg hconv] at hc
      exact absurd hc (by simp)

/-- C3: `generate_candidate_actions` always contains an Idle candidate
and a Wander candidate (hence has length at least 2), and no candidate
targets a location whose id appears in `active_cooldowns` — for every
social-wander target (i.e. every RNG outcome) and every context. -/
theorem generate_candidate_actions_invariants (wt : ℤ × ℤ) (context : AgentContext) :
    (∃ c ∈ generate_candidate_actions wt context, c.action_type = .idle) ∧
    (∃ c ∈ generate_candidate_actions wt context, c.action_type = .wander) ∧
    2 ≤ (generate_candidate_actions wt context).length ∧
    (∀ c ∈ generate_candidate_actions wt context, ∀ t, c.target = some t →
      t.target_type = "location" → ∀ i, t.target_id = some i →
      i ∉ context.active_cooldowns) := by
  refine ⟨⟨{ action_type := .idle, target := none }, ?_, rfl⟩,
    ⟨{ action_type := .wander
       target := some { target_type := "position", x := some wt.1, y := some wt.2 } },
      ?_, rfl⟩, ?_, ?_⟩
  · simp [generate_candidate_actions]
  · simp [generate_candidate_actions]
  · simp only [generate_candidate_actions, List.length_append, List.length_cons]
    omega
  · intro c hc t ht htype i hid
    rcases mem_generate_cases wt context c hc with rfl | rfl | hcase | hcase | rfl
    · simp at ht
    · simp only [Option.some.injEq] at ht
      rw [← ht] at htype
      simp at htype
    · obtain ⟨location, hl, hcd, at_, hat, rfl⟩ := hcase
      simp only [Option.some.injEq] at ht
      rw [← ht] at hid
      simp only [Option.some.injEq] at hid
      rw [← hid]
      exact hcd
    · obtain ⟨nearby, hn, hcase | hcase⟩ := hcase <;> rw [hcase] at ht <;>
        simp only [Option.some.injEq] at ht <;> rw [← ht] at htype <;> simp at htype
    · simp at ht

/-- Witness context for C3: one food location on cooldown, one not. -/
def cooldownProbeContext : AgentContext :=
  { avatar_id := "probe", x := 3, y := 3
    personality := { avatar_id := "probe", sociability := 0.5, curiosity := 0.5
                     agreeableness := 0.5, energy_baseline := 0.5, world_affinities := [] }
    state := { avatar_id := "probe", energy := 0.5, hunger := 0.5
               loneliness := 0.5, mood := 0.2 }
    world_locations :=
      [{ id := "blocked", name := "cafe", location_type := .food, x := 10, y := 10 },
       { id := "avail", name := "stand", location_type := .karaoke, x := 20, y := 10 }]
    active_cooldowns := ["blocked"] }

/-- Witness for C3 at `cooldownProbeContext`: Idle is present and the
available location's walk candidate indeed targets a non-cooldown id. -/
theorem generate_candidate_actions_invariants_witness :
    (∃ c ∈ generate_candidate_actions (30, 20) cooldownProbeContext,
      c.action_type = .idle) ∧
    "avail" ∉ cooldownProbeContext.active_cooldowns :=
  ⟨(generate_candidate_actions_invariants (30, 20) cooldownProbeContext).1,
   (generate_candidate_actions_invariants (30, 20) cooldownProbeContext).2.2.2
     { action_type := .walk_to_location
       target := some { target_type := "location", target_id := some "avail"
                        name := some "stand", x := some 20, y := some 10 } }
     (by decide)
     { target_type := "location", target_id := some "avail"
       name := some "stand", x := some 20, y := some 10 }
     rfl rfl "avail" rfl⟩

/-- Witness context for C9: agent at (70,10) close to the configured
right map edge, with a disliked avatar (sentiment −0.5) five units to its
left, so the flee target lands at x = 73 — outside the configured
`MAP_WIDTH = 60`. -/
def fleeProbeContext : AgentContext :=
  { avatar_id := "probe", x := 70, y := 10
    personality := { avatar_id := "probe", sociability := 0.5, curiosity := 0.5
                     agreeableness := 0.5, energy_baseline := 0.5, world_affinities := [] }
    state := { avatar_id := "probe", energy := 0.5, hunger := 0.3
               loneliness := 0.5, mood := 0.2 }
    social_memories := [{ id := "m", from_avatar_id := "probe"
                          to_avatar_id := "bbbbbbbbbb", sentiment := -0.5
                          familiarity := 0.2, interaction_count := 2 }]
    nearby_avatars := [{ avatar_id := "bbbbbbbbbb", x := 65, y := 10, distance := 5 }] }

/-- The avoid candidate `generate_candidate_actions` emits at
`fleeProbeContext`. -/
theorem fleeProbe_avoid_mem :
    ({ action_type := .avoid_avatar
       target := some { target_type := "avatar"
                        target_id := some "bbbbbbbbbb"
                        name := some "away from bbbbbbbb"
                        x := some 73, y := some 10 } } : CandidateAction)
    ∈ generate_candidate_actions (30, 20) fleeProbeContext := by
  have h1 : ((-0.5 : ℚ) < -0.3) := by norm_num
  have h2 : ((5 : ℚ) ≤ DecisionConfig.CONVERSATION_RADIUS + 4) := by
    norm_num [DecisionConfig.CONVERSATION_RADIUS]
  have hs : Nat.sqrt (625 / Int.toNat 25) = 5 := by
    have h : (625 / Int.toNat 25) = 25 := by rfl
    rw [h]; norm_num
  have h3 : fleePosition 70 10
      { avatar_id := "bbbbbbbbbb", x := 65, y := 10, distance := 5 } = (73, 10) := by
    norm_num [fleePosition, floorFlee, hs]
  simp only [generate_candidate_actions, fleeProbeContext, List.filterMap_nil,
    List.filterMap_cons, List.find?_cons, List.find?_nil, List.append_nil,
    beq_self_eq_true, if_true, if_false, h1, h2, h3, decide_true_eq_true]
  have htake : ("bbbbbbbbbb".take 8) = "bbbbbbbb" := rfl
  simp [htake]

/-- C9 counterexample: at `fleeProbeContext` the generator emits an
AVOID_AVATAR candidate whose flee target has x = 73, which does not lie
within the configured world bounds (map width 60): the avoid branch
clamps to the hard-coded `[1,73] × [1,54]` box, not to
`DecisionConfig.MAP_WIDTH/MAP_HEIGHT`. -/
theorem avoid_flee_escapes_configured_bounds :
    ∃ c ∈ generate_candidate_actions (30, 20) fleeProbeContext,
      c.action_type = .avoid_avatar ∧
      ∃ t, c.target = some t ∧ t.x = some 73 ∧
        ¬ (73 : ℤ) ≤ DecisionConfig.MAP_WIDTH :=
  ⟨{ action_type := .avoid_avatar
     target := some { target_type := "avatar"
                      target_id := some "bbbbbbbbbb"
                      name := some "away from bbbbbbbb"
                      x := some 73, y := some 10 } },
    fleeProbe_avoid_mem, rfl,
    { target_type := "avatar", target_id := some "bbbbbbbbbb"
      name := some "away from bbbbbbbb", x := some 73, y := some 10 },
    rfl, rfl, by decide⟩

/-- The flee target always lies in the hard-coded clamp box. -/
theorem fleePosition_bounds (cx cy : ℤ) (nearby : NearbyAvatar) :
    1 ≤ (fleePosition cx cy nearby).1 ∧ (fleePosition cx cy nearby).1 ≤ 73 ∧
    1 ≤ (fleePosition cx cy nearby).2 ∧ (fleePosition cx cy nearby).2 ≤ 54 := by
  simp only [fleePosition]
  exact ⟨le_max_left 1 _, max_le (by norm_num) (min_le_left 73 _),
    le_max_left 1 _, max_le (by norm_num) (min_le_left 54 _)⟩

/-- C9 (amended): every AVOID_AVATAR candidate emitted by
`generate_candidate_actions` has a flee-target position computed by
moving the agent's position directly away from the disliked entity
(`fleePosition`), clamped to the hard-coded box x ∈ [1,73], y ∈ [1,54]
("assuming 75x56" in the source) — not to the configured world bounds
`MAP_WIDTH = 60`, `MAP_HEIGHT = 40`. -/
theorem avoid_candidates_flee_clamped (wt : ℤ × ℤ) (context : AgentContext) :
    ∀ c ∈ generate_candidate_actions wt context, c.action_type = .avoid_avatar →
    ∃ nearby ∈ context.nearby_avatars, ∃ t, c.target = some t ∧
      t.x = some (fleePosition context.x context.y nearby).1 ∧
      t.y = some (fleePosition context.x context.y nearby).2 ∧
      1 ≤ (fleePosition context.x context.y nearby).1 ∧
      (fleePosition context.x context.y nearby).1 ≤ 73 ∧
      1 ≤ (fleePosition context.x context.y nearby).2 ∧
      (fleePosition context.x context.y nearby).2 ≤ 54 := by
  intro c hc hty
  rcases mem_generate_cases wt context c hc with rfl | rfl | hcase | hcase | rfl
  · simp at hty
  · simp at hty
  · obtain ⟨location, hl, hcd, at_, hat, rfl⟩ := hcase
    simp only at hty
    rw [hty] at hat
    simp at hat
  · obtain ⟨nearby, hn, hcase | hcase⟩ := hcase
    · subst hcase
      exact ⟨nearby, hn, _, rfl, rfl, rfl, (fleePosition_bounds _ _ _).1,
        (fleePosition_bounds _ _ _).2.1, (fleePosition_bounds _ _ _).2.2.1,
        (fleePosition_bounds _ _ _).2.2.2⟩
    · rw [hcase] at hty
      simp at hty
  · simp at hty

/-- Witness for the amended C9 at `fleeProbeContext`: the avoid
candidate's flee target (73, 10) lies in the hard-coded box. -/
theorem avoid_candidates_flee_clamped_witness :
    ∃ nearby ∈ fleeProbeContext.nearby_avatars, ∃ t : ActionTarget,
      some t = some t ∧
      t.x = some (fleePosition fleeProbeContext.x fleeProbeContext.y nearby).1 ∧
      t.y = some (fleePosition fleeProbeContext.x fleeProbeContext.y nearby).2 ∧
      1 ≤ (fleePosition fleeProbeContext.x fleeProbeContext.y nearby).1 ∧
      (fleePosition fleeProbeContext.x fleeProbeContext.y nearby).1 ≤ 73 ∧
      1 ≤ (fleePosition fleeProbeContext.x fleeProbeContext.y nearby).2 ∧
      (fleePosition fleeProbeContext.x fleeProbeContext.y nearby).2 ≤ 54 := by
  obtain ⟨nearby, hn, t, ht, hrest⟩ :=
    avoid_candidates_flee_clamped (30, 20) fleeProbeContext
      { action_type := .avoid_avatar
        target := some { target_type := "avatar"
                         target_id := some "bbbbbbbbbb"
                         name := some "away from bbbbbbbb"
                         x := some 73, y := some 10 } }
      fleeProbe_avoid_mem rfl
  exact ⟨nearby, hn, t, rfl, hrest⟩

/-- C7: when `check_for_interrupts` returns no interrupt, `make_decision`
returns an action whose kind and target come from the candidate list of
`generate_candidate_actions`, and whenever at least one scored candidate
has strictly positive utility, the selected action's utility is strictly
positive (a non-positive candidate can win only when all are
non-positive). -/
theorem make_decision_no_interrupt (exp : ℚ → ℚ) (now_hours : ℚ) (rng : EngineRng)
    (context : AgentContext)
    (hno : check_for_interrupts rng.robot_draw context = none) :
    ∃ a, make_decision exp now_hours rng context = .ok a ∧
      (∃ c ∈ generate_candidate_actions rng.wander_target context,
        a.action_type = c.action_type ∧ a.target = c.target) ∧
      ((∃ s ∈ mdScored now_hours rng context, 0 < s.utility_score) →
        0 < a.utility_score) := by
  have hcand_ne : generate_candidate_actions rng.wander_target context ≠ [] := by
    simp [generate_candidate_actions]
  have hscored_ne : mdScored now_hours rng context ≠ [] :=
    score_all_actions_ne_nil _ _ _ _ _ hcand_ne
  have hchosen_ne : mdChosen now_hours rng context ≠ [] := by
    unfold mdChosen
    split
    · exact hscored_ne
    · next hp =>
      intro hnil
      rw [hnil] at hp
      simp at hp
  obtain ⟨sel, hselmem, hsel⟩ := softmax_select_ok exp (mdChosen now_hours rng context)
    DecisionConfig.SOFTMAX_TEMPERATURE rng.softmax_r hchosen_ne
  have hselScored : sel ∈ mdScored now_hours rng context := by
    unfold mdChosen at hselmem
    split at hselmem
    · exact hselmem
    · exact List.mem_of_mem_filter hselmem
  refine ⟨{ action_type := sel.action_type, target := sel.target
            utility_score := sel.utility_score
            duration_seconds := some (calculate_action_duration sel.action_type) },
    ?_, ?_, ?_⟩
  · simp only [make_decision, hno, hsel]
  · obtain ⟨c, hc, h1, h2⟩ :=
      score_all_actions_mem now_hours rng.gauss context _ 0 sel hselScored
    exact ⟨c, hc, h1, h2⟩
  · rintro ⟨s, hs, hspos⟩
    have hpne : mdPositive now_hours rng context ≠ [] := by
      refine List.ne_nil_of_mem (a := s) ?_
      unfold mdPositive
      exact List.mem_filter.mpr ⟨hs, by simpa using hspos⟩
    have hch : mdChosen now_hours rng context = mdPositive now_hours rng context := by
      unfold mdChosen
      rw [if_neg]
      simpa using hpne
    rw [hch] at hselmem
    have hmem := List.mem_filter.mp hselmem
    simpa using hmem.2

/-- Witness context for C7: all needs at 0.5, no nearby entities, no
locations, no pending requests — no interrupt fires and the Idle
candidate scores 0.18 > 0. -/
def neutralProbeContext : AgentContext :=
  { avatar_id := "probe", x := 3, y := 3
    personality := { avatar_id := "probe", sociability := 0.5, curiosity := 0.5
                     agreeableness := 0.5, energy_baseline := 0.5, world_affinities := [] }
    state := { avatar_id := "probe", energy := 0.5, hunger := 0.5
               loneliness := 0.5, mood := 0.2 } }

/-- The RNG draws used for the C7 witness (all-zero Gaussian draws). -/
def neutralProbeRng : EngineRng :=
  { wander_target := (5, 5), gauss := fun _ => 0, softmax_r := 0.5, robot_draw := fun _ => 1 }

/-- Witness for C7 at `neutralProbeContext`: no interrupt fires, the
scored Idle candidate has positive utility, and the decision is a
candidate with positive utility. -/
theorem make_decision_no_interrupt_witness :
    check_for_interrupts neutralProbeRng.robot_draw neutralProbeContext = none ∧
    (∃ s ∈ mdScored 0 neutralProbeRng neutralProbeContext, 0 < s.utility_score) ∧
    ∃ a, make_decision (fun _ => 1) 0 neutralProbeRng neutralProbeContext = .ok a ∧
      (∃ c ∈ generate_candidate_actions neutralProbeRng.wander_target neutralProbeContext,
        a.action_type = c.action_type ∧ a.target = c.target) ∧
      0 < a.utility_score := by
  have hno : check_for_interrupts neutralProbeRng.robot_draw neutralProbeContext = none := by
    with_unfolding_all decide
  have hpos : ∃ s ∈ mdScored 0 neutralProbeRng neutralProbeContext, 0 < s.utility_score := by
    refine ⟨score_action 0 0 neutralProbeContext { action_type := .idle, target := none },
      ?_, ?_⟩
    · with_unfolding_all decide
    · with_unfolding_all decide
  obtain ⟨a, hmd, hcand, himp⟩ :=
    make_decision_no_interrupt (fun _ => 1) 0 neutralProbeRng neutralProbeContext hno
  exact ⟨hno, hpos, a, hmd, hcand, himp hpos⟩

end AgentSim
